import Mathlib

/-!
Verification development for the numerical core of `pavimento_rigido.py`
(AASHTO 93 rigid-pavement design for substation access roads).

Floating-point arithmetic of the source is modelled over the real numbers
(with the usual total-division convention of the target logic).
`scipy.optimize.fsolve` is an external library routine, not code of this
repository; it is modelled as an abstract oracle that receives the residual
function and an initial guess and reports a candidate root together with the
integer convergence flag `ier` (`ier = 1` means "reported convergent"), which
is exactly the part of its output the source consumes.
-/

namespace PavimentoRigido

/-- Source `calcular_w18` (lines 14-21): cumulative traffic (ESALs).
`fe = (peso_eje / 8.2) ** 4.0`, `r = crecimiento / 100`,
`f_crec = periodo * 365` if `r == 0` else `((1 + r) ** periodo - 1) / r * 365`,
returns the pair `(fe, tpd * fe * f_crec)`. -/
noncomputable def calcular_w18 (tpd periodo : ℕ) (crecimiento peso_eje : ℝ) : ℝ × ℝ :=
  let p_patron : ℝ := 8.2
  let alfa : ℝ := 4.0
  let fe : ℝ := (peso_eje / p_patron) ^ alfa
  let r := crecimiento / 100
  let f_crec := if r = 0 then (periodo : ℝ) * 365 else ((1 + r) ^ periodo - 1) / r * 365
  (fe, (tpd : ℝ) * fe * f_crec)

/-- Modelled from the spec (section 4.1): the load-equivalency factor
`fe = (heaviestAxleLoadTon / 8.2) ^ 4.0`, stated in the words of the spec for
comparison with the source definition. -/
noncomputable def fe_spec (ton : ℝ) : ℝ := (ton / 8.2) ^ (4.0 : ℝ)

/-- Modelled from the spec (section 4.1): the growth factor, branching on
`annualGrowthPercent == 0`, stated in the words of the spec for comparison
with the source definition. -/
noncomputable def factor_crecimiento_spec (crecimiento : ℝ) (periodo : ℕ) : ℝ :=
  if crecimiento = 0 then (periodo : ℝ) * 365
  else ((1 + crecimiento / 100) ^ periodo - 1) / (crecimiento / 100) * 365

/-- Logarithmic branch of the CBR correlation (source lines 160 and 393):
`25.5 + 52.5 * np.log10(cbr)`. -/
noncomputable def rama_log (cbr : ℝ) : ℝ := 25.5 + 52.5 * Real.logb 10 cbr

/-- Power-law branch of the CBR correlation (source lines 161 and 394):
`46.0 + 9.08 * (np.log10(cbr)) ** 4.34`. -/
noncomputable def rama_pot (cbr : ℝ) : ℝ := 46.0 + 9.08 * (Real.logb 10 cbr) ^ (4.34 : ℝ)

/-- Source CBR correlation (identical at lines 160-161, tab 2, and lines
393-394, sweep loop): the logarithmic branch when `cbr <= 10`, the power-law
branch otherwise. -/
noncomputable def k_natural (cbr : ℝ) : ℝ :=
  if cbr ≤ 10 then rama_log cbr else rama_pot cbr

/-- Source `calcular_k_combinado` (lines 23-37): combined modulus of the slab
over a base layer.  Converts the base thickness to inches; below 3 inches the
input modulus is returned unchanged (early return, before any cap); otherwise
the branch factor for the material string is applied and the result is clamped
to 800 pci. -/
noncomputable def calcular_k_combinado (k_subrasante espesor_base_cm : ℝ)
    (tipo_material : String) : ℝ :=
  let h_pulg := espesor_base_cm / 2.54
  if h_pulg < 3 then k_subrasante
  else
    let k_nuevo :=
      if tipo_material = "Base Granular (Zahorra)" then
        k_subrasante * (1 + 0.15 * Real.log h_pulg)
      else if tipo_material = "Suelo Cemento / Estabilizada" then
        k_subrasante * (1 + 0.35 * Real.log h_pulg) * 1.25
      else k_subrasante
    min k_nuevo 800

/-- Numerator of the material term of the residual (source line 48):
`sc * cd * (D ** 0.75 - 1.132)`. -/
noncomputable def num_ec (sc cd D : ℝ) : ℝ := sc * cd * (D ^ (0.75 : ℝ) - 1.132)

/-- Denominator of the material term of the residual (source line 49):
`215.63 * j * (D ** 0.75 - 18.42 / ((ec / k) ** 0.25))`. -/
noncomputable def den_ec (j ec k D : ℝ) : ℝ :=
  215.63 * j * (D ^ (0.75 : ℝ) - 18.42 / ((ec / k) ^ (0.25 : ℝ)))

/-- Source `ecuacion` (lines 42-52, the closure inside `calcular_espesor_aashto`):
the AASHTO 93 residual at trial thickness `D`.  `d_psi = p0 - pt` is inlined.
Both `<= 0` guards return the sentinel `1e10`. -/
noncomputable def ecuacion (w18 zr s0 p0 pt sc cd j ec k D : ℝ) : ℝ :=
  if D ≤ 0 then 1e10
  else
    let term_conf := zr * s0
    let term_esp := 7.35 * Real.logb 10 (D + 1) - 0.06
    let term_serv :=
      Real.logb 10 (max (p0 - pt) 0.01 / 3) / (1 + 1.624 * 10 ^ (7 : ℕ) / ((D + 1) ^ (8.46 : ℝ)))
    let factor_ajuste := 4.22 - 0.32 * pt
    if num_ec sc cd D / den_ec j ec k D ≤ 0 then 1e10
    else
      term_conf + term_esp + term_serv +
        factor_ajuste * Real.logb 10 (num_ec sc cd D / den_ec j ec k D) -
        Real.logb 10 (max w18 1)

/-- The fixed ordered list of initial guesses of source line 54. -/
noncomputable def lista_guesses : List ℝ := [6, 8, 10, 12, 14, 18]

/-- The retry loop of source lines 54-57: try the guesses in order, return the
first reported-convergent strictly positive root, else `none`. -/
noncomputable def primera_solucion (intentar : ℝ → ℝ × ℤ) : List ℝ → Option ℝ
  | [] => none
  | g :: gs =>
    if (intentar g).2 = 1 ∧ 0 < (intentar g).1 then some (intentar g).1
    else primera_solucion intentar gs

/-- Source `calcular_espesor_aashto` (lines 39-57), with `fsolve` abstracted as
an oracle receiving the residual function and a guess and returning
`(sol[0], ier)`. -/
noncomputable def calcular_espesor_aashto (fsolve : (ℝ → ℝ) → ℝ → ℝ × ℤ)
    (w18 zr s0 p0 pt sc cd j ec k : ℝ) : Option ℝ :=
  primera_solucion (fun guess => fsolve (ecuacion w18 zr s0 p0 pt sc cd j ec k) guess)
    lista_guesses

/-- Acceptance test of source line 56 as a boolean predicate on the oracle
output: `ier == 1 and sol > 0`. -/
noncomputable def acepta_raiz (r : ℝ × ℤ) : Bool := decide (r.2 = 1 ∧ 0 < r.1)

/-- Classification outcome of a sweep row (source lines 415-423): the `Estado`
column takes the values OK, Revisar, Critico. -/
inductive Estado where
  | ok : Estado
  | revisar : Estado
  | critico : Estado

/-- Python `round(x, 0)`: round to the nearest integer, ties to even (the
rounding used at source line 412). -/
noncomputable def round_py (x : ℝ) : ℤ :=
  if x - (⌊x⌋ : ℝ) < 1 / 2 then ⌊x⌋
  else if 1 / 2 < x - (⌊x⌋ : ℝ) then ⌊x⌋ + 1
  else if ⌊x⌋ % 2 = 0 then ⌊x⌋ else ⌊x⌋ + 1

/-- Sweep row classification (source lines 411-423): for `esp_cm <= 25` the
adopted thickness is `max(round(esp_cm, 0), 15.0)` and the state is Revisar
when `23 <= adoptado <= 25`, otherwise OK; for `esp_cm > 25` the state is
Critico. -/
noncomputable def estado_fila (esp_cm : ℝ) : Estado :=
  if esp_cm ≤ 25 then
    let adoptado : ℝ := max ((round_py esp_cm : ℤ) : ℝ) 15
    if 23 ≤ adoptado ∧ adoptado ≤ 25 then Estado.revisar else Estado.ok
  else Estado.critico

/-- The scalar design parameters shared by every sweep row (source line 400:
`w18_res, zr, s0, p0, pt, sc, cd_val, j_val, ec_res`). -/
structure Params where
  w18 : ℝ
  zr : ℝ
  s0 : ℝ
  p0 : ℝ
  pt : ℝ
  sc : ℝ
  cd : ℝ
  j : ℝ
  ec : ℝ

/-- The saved base-layer configuration used by the sweep (source lines 388-390). -/
structure ConfigBase where
  usa_base : Bool
  tipo_base : String
  esp_base : ℝ

/-- One row of the sensitivity table (source lines 405-423); the display-only
string formatting and rounding of the source are presentation and omitted. -/
structure Fila where
  cbr : ℝ
  k_comb : ℝ
  esp_cm : ℝ
  estado : Estado

/-- Body of one iteration of the sweep loop (source lines 392-425): compute the
natural modulus for the CBR value, combine with the saved base layer when
configured, solve for the thickness, and build a row only when the solver
returned a truthy (non-`None`, nonzero) value. -/
noncomputable def fila_abaco (fsolve : (ℝ → ℝ) → ℝ → ℝ × ℤ) (p : Params)
    (cfg : ConfigBase) (c : ℝ) : Option Fila :=
  let k_nat := k_natural c
  let ki := if cfg.usa_base then calcular_k_combinado k_nat cfg.esp_base cfg.tipo_base
    else k_nat
  match calcular_espesor_aashto fsolve p.w18 p.zr p.s0 p.p0 p.pt p.sc p.cd p.j p.ec ki with
  | none => none
  | some esp_pulg =>
    if esp_pulg = 0 then none
    else some ⟨c, ki, esp_pulg * 2.54, estado_fila (esp_pulg * 2.54)⟩

/-- The sweep loop itself (source lines 392-425): the rows accumulated over the
list of CBR values, in order; iterations whose solve fails append nothing. -/
noncomputable def abaco (fsolve : (ℝ → ℝ) → ℝ → ℝ × ℤ) (p : Params) (cfg : ConfigBase) :
    List ℝ → List Fila
  | [] => []
  | c :: cs =>
    match fila_abaco fsolve p cfg c with
    | none => abaco fsolve p cfg cs
    | some fila => fila :: abaco fsolve p cfg cs

/-- A concrete oracle that never reports convergence (`ier = 0`), used to
exercise the failure path on concrete inputs. -/
noncomputable def fsolve_cero : (ℝ → ℝ) → ℝ → ℝ × ℤ := fun _ _ => (-1, 0)

/-- A concrete oracle that reports every guess as a convergent root of itself
(`ier = 1`), used to exercise the success path on concrete inputs. -/
noncomputable def fsolve_uno : (ℝ → ℝ) → ℝ → ℝ × ℤ := fun _ g => (g, 1)

/-- Concrete all-zero design parameters for witnesses. -/
noncomputable def params_cero : Params := ⟨0, 0, 0, 0, 0, 0, 0, 0, 0⟩

/-- Concrete no-base-layer configuration for witnesses. -/
noncomputable def cfg_cero : ConfigBase := ⟨false, "", 0⟩

/-- The retry loop returns exactly the first accepted oracle output: it equals
`find?` of the acceptance test over the guesses, mapped to the root component. -/
theorem primera_solucion_eq_find (intentar : ℝ → ℝ × ℤ) (l : List ℝ) :
    primera_solucion intentar l =
      Option.map Prod.fst (List.find? acepta_raiz (l.map intentar)) := by
  induction l with
  | nil => simp [primera_solucion]
  | cons g gs ih =>
    by_cases h : (intentar g).2 = 1 ∧ 0 < (intentar g).1
    · have hb : acepta_raiz (intentar g) = true := by
        simp only [acepta_raiz, decide_eq_true_eq]
        exact h
      rw [List.map_cons, List.find?_cons_of_pos _ hb]
      simp only [primera_solucion, if_pos h, Option.map_some']
    · have hnb : ¬ acepta_raiz (intentar g) = true := by
        simp only [acepta_raiz, decide_eq_true_eq]
        exact h
      rw [List.map_cons, List.find?_cons_of_neg _ hnb]
      simp only [primera_solucion, if_neg h, ih]

/-- Any root returned by the retry loop is strictly positive. -/
theorem primera_solucion_pos (intentar : ℝ → ℝ × ℤ) (l : List ℝ) (x : ℝ)
    (h : primera_solucion intentar l = some x) : 0 < x := by
  induction l with
  | nil => simp [primera_solucion] at h
  | cons g gs ih =>
    simp only [primera_solucion] at h
    by_cases hg : (intentar g).2 = 1 ∧ 0 < (intentar g).1
    · rw [if_pos hg] at h
      exact Option.some.inj h ▸ hg.2
    · rw [if_neg hg] at h
      exact ih h

/-- If no guess is accepted, the retry loop returns `none`. -/
theorem primera_solucion_none (intentar : ℝ → ℝ × ℤ) (l : List ℝ)
    (h : ∀ g ∈ l, ¬ ((intentar g).2 = 1 ∧ 0 < (intentar g).1)) :
    primera_solucion intentar l = none := by
  induction l with
  | nil => rfl
  | cons g gs ih =>
    simp only [primera_solucion, if_neg (h g (by simp))]
    exact ih fun g' hg' => h g' (by simp [hg'])

/-- Claim C1: `calcular_espesor_aashto` tries the initial guesses 6, 8, 10, 12,
14, 18 in exactly that order, returns the root from the first guess whose
oracle output reports convergence (`ier = 1`) to a strictly positive root, and
returns `none` when no guess is accepted (which is what `find? = none` means
here) — no default thickness is substituted. -/
theorem calcular_espesor_primera_raiz_aceptada (fsolve : (ℝ → ℝ) → ℝ → ℝ × ℤ)
    (w18 zr s0 p0 pt sc cd j ec k : ℝ) :
    calcular_espesor_aashto fsolve w18 zr s0 p0 pt sc cd j ec k =
      Option.map Prod.fst (List.find? acepta_raiz
        (lista_guesses.map (fun g => fsolve (ecuacion w18 zr s0 p0 pt sc cd j ec k) g))) ∧
    lista_guesses = [6, 8, 10, 12, 14, 18] :=
  ⟨primera_solucion_eq_find _ _, rfl⟩

/-- Claim C2: the residual is total and guarded — for `D <= 0` it is the
sentinel `1e10`; whenever the material-term quotient is non-positive (in
particular whenever the denominator is zero, under the total-division
convention of the model) it is the same sentinel; and on the non-sentinel path
every logarithm argument and every divisor occurring in the residual is
strictly positive. -/
theorem ecuacion_residual_segura (w18 zr s0 p0 pt sc cd j ec k D : ℝ) :
    (D ≤ 0 → ecuacion w18 zr s0 p0 pt sc cd j ec k D = 1e10) ∧
    (num_ec sc cd D / den_ec j ec k D ≤ 0 →
      ecuacion w18 zr s0 p0 pt sc cd j ec k D = 1e10) ∧
    (den_ec j ec k D = 0 → ecuacion w18 zr s0 p0 pt sc cd j ec k D = 1e10) ∧
    (0 < D → 0 < num_ec sc cd D / den_ec j ec k D →
      0 < D + 1 ∧
      0 < max (p0 - pt) 0.01 / 3 ∧
      0 < (D + 1) ^ (8.46 : ℝ) ∧
      0 < 1 + 1.624 * 10 ^ (7 : ℕ) / ((D + 1) ^ (8.46 : ℝ)) ∧
      0 < max w18 1) := by
  have hsent : num_ec sc cd D / den_ec j ec k D ≤ 0 →
      ecuacion w18 zr s0 p0 pt sc cd j ec k D = 1e10 := by
    intro hq
    by_cases hD : D ≤ 0
    · simp only [ecuacion, if_pos hD]
    · simp only [ecuacion, if_neg hD, if_pos hq]
  refine ⟨?_, hsent, ?_, ?_⟩
  · intro hD
    simp only [ecuacion, if_pos hD]
  · intro hden
    exact hsent (by rw [hden, div_zero])
  · intro hD hq
    have h1 : (0 : ℝ) < D + 1 := by linarith
    have h3 : (0 : ℝ) < (D + 1) ^ (8.46 : ℝ) := Real.rpow_pos_of_pos h1 _
    refine ⟨h1, ?_, h3, ?_, ?_⟩
    · have hmax : (0.01 : ℝ) ≤ max (p0 - pt) 0.01 := le_max_right _ _
      have : (0 : ℝ) < max (p0 - pt) 0.01 := lt_of_lt_of_le (by norm_num) hmax
      exact div_pos this (by norm_num)
    · have hdiv : (0 : ℝ) < 1.624 * 10 ^ (7 : ℕ) / ((D + 1) ^ (8.46 : ℝ)) :=
        div_pos (by norm_num) h3
      linarith
    · exact lt_of_lt_of_le one_pos (le_max_right _ _)

/-- Witness for claim C2 at the concrete trial thickness `D = -1`. -/
theorem ecuacion_residual_segura_testigo :
    ((-1 : ℝ) ≤ 0) ∧ ecuacion 0 0 0 0 0 0 0 0 0 0 (-1) = 1e10 :=
  ⟨by norm_num, (ecuacion_residual_segura 0 0 0 0 0 0 0 0 0 0 (-1)).1 (by norm_num)⟩

/-- Value of the logarithmic branch at the branch point CBR = 10. -/
theorem rama_log_diez : rama_log 10 = 78 := by
  have h : Real.logb 10 10 = 1 := Real.logb_self_eq_one (by norm_num)
  rw [rama_log, h]
  norm_num

/-- Value of the power-law branch at the branch point CBR = 10. -/
theorem rama_pot_diez : rama_pot 10 = 55.08 := by
  have h : Real.logb 10 10 = 1 := Real.logb_self_eq_one (by norm_num)
  rw [rama_pot, h, Real.one_rpow]
  norm_num

/-- Claim C3 counterexample: the two branch formulas of the CBR correlation do
not agree as `cbr` approaches 10 — at the branch point itself (both formulas
are continuous there) the logarithmic branch gives 78.0 pci, the power-law
branch gives 55.08 pci, a gap of 22.92 pci, far beyond any floating tolerance. -/
theorem ramas_cbr_discrepan_en_diez :
    rama_log 10 = 78 ∧ rama_pot 10 = 55.08 ∧ rama_log 10 - rama_pot 10 = 22.92 := by
  refine ⟨rama_log_diez, rama_pot_diez, ?_⟩
  rw [rama_log_diez, rama_pot_diez]
  norm_num

/-- Claim C3 (amended): `k_natural` computes `25.5 + 52.5 * log10 cbr` for
`cbr <= 10` and `46.0 + 9.08 * (log10 cbr) ^ 4.34` for `cbr > 10`; the two
branch formulas do not agree in the limit `cbr -> 10`: at the branch point they
give 78.0 and 55.08 pci, so the correlation jumps by 22.92 pci there. -/
theorem k_natural_ramas_y_salto (cbr : ℝ) :
    (cbr ≤ 10 → k_natural cbr = rama_log cbr) ∧
    (¬ cbr ≤ 10 → k_natural cbr = rama_pot cbr) ∧
    rama_log 10 - rama_pot 10 = 22.92 := by
  refine ⟨fun h => ?_, fun h => ?_, ?_⟩
  · simp only [k_natural, if_pos h]
  · simp only [k_natural, if_neg h]
  · rw [rama_log_diez, rama_pot_diez]
    norm_num

/-- Witness for claim C3 (amended) at the concrete value CBR = 3. -/
theorem k_natural_ramas_y_salto_testigo :
    ((3 : ℝ) ≤ 10) ∧ k_natural 3 = rama_log 3 :=
  ⟨by norm_num, (k_natural_ramas_y_salto 3).1 (by norm_num)⟩

/-- Claim C4 counterexample: with a natural modulus of 1000 pci (positive) and
a 5 cm base (positive thickness, below the 3-inch floor), the early return of
`calcular_k_combinado` bypasses the 800 pci cap in the below-3-inch branch. -/
theorem k_combinado_sin_tope_base_delgada :
    calcular_k_combinado 1000 5 "Base Granular (Zahorra)" = 1000 ∧
    ¬ calcular_k_combinado 1000 5 "Base Granular (Zahorra)" ≤ 800 := by
  have h : (5 : ℝ) / 2.54 < 3 := by norm_num
  constructor
  · simp only [calcular_k_combinado, if_pos h]
  · simp only [calcular_k_combinado, if_pos h]
    norm_num

/-- Claim C4 (amended): the 800 pci cap holds in every branch in which the
converted base thickness reaches 3 inches, for every material kind; in the
below-3-inch branch the input modulus is returned unclamped, so there the cap
holds exactly when the input modulus already respects it. -/
theorem k_combinado_tope_ochocientos (k_sub t : ℝ) (tipo : String)
    (h : k_sub ≤ 800 ∨ ¬ t / 2.54 < 3) :
    calcular_k_combinado k_sub t tipo ≤ 800 := by
  by_cases hb : t / 2.54 < 3
  · have hk : k_sub ≤ 800 := h.resolve_right fun hn => hn hb
    simp only [calcular_k_combinado, if_pos hb]
    exact hk
  · simp only [calcular_k_combinado, if_neg hb]
    exact min_le_right _ _

/-- Witness for claim C4 (amended): a 10 cm base (at least 3 inches) is capped
even with a 1000 pci natural modulus. -/
theorem k_combinado_tope_ochocientos_testigo :
    calcular_k_combinado 1000 10 "Base Granular (Zahorra)" ≤ 800 :=
  k_combinado_tope_ochocientos 1000 10 "Base Granular (Zahorra)" (Or.inr (by norm_num))

/-- Claim C9: for a material string that is neither of the two recognized enum
values and a base converting to at least 3 inches, `calcular_k_combinado`
returns `min kNatural 800` — no improvement factor is applied and the result is
strictly below `kNatural` whenever `kNatural > 800` — instead of rejecting the
out-of-enum kind. -/
theorem k_combinado_material_desconocido (k_sub t : ℝ) (tipo : String)
    (h1 : ¬ tipo = "Base Granular (Zahorra)") (h2 : ¬ tipo = "Suelo Cemento / Estabilizada")
    (h3 : ¬ t / 2.54 < 3) :
    calcular_k_combinado k_sub t tipo = min k_sub 800 ∧
    (800 < k_sub → calcular_k_combinado k_sub t tipo < k_sub) := by
  have he : calcular_k_combinado k_sub t tipo = min k_sub 800 := by
    simp only [calcular_k_combinado, if_neg h3, if_neg h1, if_neg h2]
  refine ⟨he, fun hk => ?_⟩
  rw [he, min_eq_right (le_of_lt hk)]
  exact hk

/-- Witness for claim C9 at the concrete inputs k = 1000 pci, base 10 cm,
material string outside the enum. -/
theorem k_combinado_material_desconocido_testigo :
    calcular_k_combinado 1000 10 "Otro" = min 1000 800 ∧
    calcular_k_combinado 1000 10 "Otro" < 1000 := by
  have h := k_combinado_material_desconocido 1000 10 "Otro" (by simp) (by simp) (by norm_num)
  exact ⟨h.1, h.2 (by norm_num)⟩

/-- Python rounding, lower half of the unit interval: values with fractional
part below one half round down. -/
theorem round_py_baja (x : ℝ) (n : ℤ) (h1 : (n : ℝ) ≤ x) (h2 : x < n + 1 / 2) :
    round_py x = n := by
  have hf : ⌊x⌋ = n := Int.floor_eq_iff.mpr ⟨h1, by linarith⟩
  simp only [round_py, hf]
  rw [if_pos (by linarith)]

/-- Python rounding, upper half of the unit interval: values with fractional
part above one half round up. -/
theorem round_py_alta (x : ℝ) (n : ℤ) (h1 : (n : ℝ) + 1 / 2 < x) (h2 : x < n + 1) :
    round_py x = n + 1 := by
  have hf : ⌊x⌋ = n := Int.floor_eq_iff.mpr ⟨by linarith, by linarith⟩
  simp only [round_py, hf]
  rw [if_neg (by linarith), if_pos (by linarith)]

/-- The adopted-thickness expression evaluated at an integer rounding of 23. -/
theorem max_veintitres : max (((23 : ℤ) : ℝ)) 15 = 23 := by
  rw [max_eq_left (by norm_num)]
  norm_num

/-- A computed thickness of 22.9 cm is adopted as 23 cm and classified Revisar. -/
theorem estado_fila_229 : estado_fila 22.9 = Estado.revisar := by
  have hr : round_py 22.9 = 23 := by
    rw [round_py_alta 22.9 22 (by norm_num) (by norm_num)]
    norm_num
  simp only [estado_fila, hr, max_veintitres]
  rw [if_pos (by norm_num), if_pos ⟨by norm_num, by norm_num⟩]

/-- A computed thickness of exactly 23.0 cm is adopted as 23 cm and classified
Revisar. -/
theorem estado_fila_23 : estado_fila 23 = Estado.revisar := by
  have hr : round_py 23 = 23 := round_py_baja 23 23 (by norm_num) (by norm_num)
  simp only [estado_fila, hr, max_veintitres]
  rw [if_pos (by norm_num), if_pos ⟨by norm_num, by norm_num⟩]

/-- A computed thickness of 25.01 cm exceeds the 25 cm ceiling and is
classified Critico. -/
theorem estado_fila_2501 : estado_fila 25.01 = Estado.critico := by
  simp only [estado_fila]
  rw [if_neg (by norm_num)]

/-- Claim C5 counterexample: a pre-rounding thickness of 22.9 cm classifies
Revisar (its adopted thickness rounds to 23 cm), not Ok as the claim states. -/
theorem fila_229_no_es_ok :
    estado_fila 22.9 = Estado.revisar ∧ Estado.revisar ≠ Estado.ok :=
  ⟨estado_fila_229, fun h => Estado.noConfusion h⟩

/-- Claim C5 (amended): every successfully solved sweep row with computed
thickness above 25 cm classifies Critico; otherwise, with the adopted thickness
being the computed thickness rounded to the nearest whole cm (ties to even, the
Python `round`, not rounding up) and floored at 15 cm, an adopted thickness in
[23, 25] cm classifies Revisar and anything else Ok.  In particular an adopted
thickness of exactly 23.0 cm classifies Revisar, a pre-rounding 25.01 cm
classifies Critico, and a pre-rounding 22.9 cm (adopted 23 cm) classifies
Revisar, not Ok. -/
theorem clasificacion_abaco (esp_cm : ℝ) :
    (¬ esp_cm ≤ 25 → estado_fila esp_cm = Estado.critico) ∧
    (esp_cm ≤ 25 → 23 ≤ max ((round_py esp_cm : ℤ) : ℝ) 15 →
      max ((round_py esp_cm : ℤ) : ℝ) 15 ≤ 25 → estado_fila esp_cm = Estado.revisar) ∧
    (esp_cm ≤ 25 →
      ¬ (23 ≤ max ((round_py esp_cm : ℤ) : ℝ) 15 ∧ max ((round_py esp_cm : ℤ) : ℝ) 15 ≤ 25) →
      estado_fila esp_cm = Estado.ok) ∧
    estado_fila 23 = Estado.revisar ∧
    estado_fila 25.01 = Estado.critico ∧
    estado_fila 22.9 = Estado.revisar := by
  refine ⟨fun h => ?_, fun h ha hb => ?_, fun h hn => ?_,
    estado_fila_23, estado_fila_2501, estado_fila_229⟩
  · simp only [estado_fila]
    rw [if_neg h]
  · simp only [estado_fila]
    rw [if_pos h, if_pos ⟨ha, hb⟩]
  · simp only [estado_fila]
    rw [if_pos h, if_neg hn]

/-- Witness for claim C5 (amended) at the concrete thickness 26 cm. -/
theorem clasificacion_abaco_testigo : estado_fila 26 = Estado.critico :=
  (clasificacion_abaco 26).1 (by norm_num)

/-- Claim C7: for admissible traffic inputs, `calcular_w18` returns exactly the
load-equivalency factor `(heaviestAxleLoadTon / 8.2) ^ 4.0` and the cumulative
ESAL `tpd * fe * growthFactor`, where the growth factor is `periodo * 365` when
the growth rate is zero and the compound-growth annuity factor otherwise. -/
theorem calcular_w18_formulas (tpd periodo : ℕ) (crecimiento peso_eje : ℝ)
    (_h1 : 1 ≤ tpd) (_h2 : 1 ≤ periodo) (_h3 : 0 ≤ crecimiento) (_h4 : 0 < peso_eje) :
    (calcular_w18 tpd periodo crecimiento peso_eje).1 = fe_spec peso_eje ∧
    (calcular_w18 tpd periodo crecimiento peso_eje).2 =
      (tpd : ℝ) * fe_spec peso_eje * factor_crecimiento_spec crecimiento periodo := by
  have hiff : crecimiento / 100 = 0 ↔ crecimiento = 0 := by
    rw [div_eq_zero_iff]
    constructor
    · rintro (hc | hc)
      · exact hc
      · norm_num at hc
    · exact Or.inl
  constructor
  · rfl
  · simp only [calcular_w18, fe_spec, factor_crecimiento_spec]
    by_cases hc : crecimiento = 0
    · rw [if_pos (hiff.mpr hc), if_pos hc]
    · rw [if_neg (fun h => hc (hiff.mp h)), if_neg hc]

/-- Witness for claim C7 at the concrete traffic inputs of the spec scenario A:
5 heavy vehicles per day, 25 years, zero growth, 11-ton axle. -/
theorem calcular_w18_formulas_testigo :
    (calcular_w18 5 25 0 11).1 = fe_spec 11 ∧
    (calcular_w18 5 25 0 11).2 = ((5 : ℕ) : ℝ) * fe_spec 11 * factor_crecimiento_spec 0 25 :=
  calcular_w18_formulas 5 25 0 11 (by norm_num) (by norm_num) (by norm_num) (by norm_num)

/-- The sweep distributes over concatenation of the CBR value list. -/
theorem abaco_append (fsolve : (ℝ → ℝ) → ℝ → ℝ × ℤ) (p : Params) (cfg : ConfigBase)
    (l1 l2 : List ℝ) :
    abaco fsolve p cfg (l1 ++ l2) = abaco fsolve p cfg l1 ++ abaco fsolve p cfg l2 := by
  induction l1 with
  | nil => simp [abaco]
  | cons c cs ih =>
    rw [List.cons_append]
    simp only [abaco]
    cases hf : fila_abaco fsolve p cfg c with
    | none => exact ih
    | some fila => simp only [List.cons_append, ih]

/-- A CBR value whose row computation fails contributes nothing to the sweep. -/
theorem abaco_cons_none (fsolve : (ℝ → ℝ) → ℝ → ℝ × ℤ) (p : Params) (cfg : ConfigBase)
    (l : List ℝ) (c : ℝ) (h : fila_abaco fsolve p cfg c = none) :
    abaco fsolve p cfg (c :: l) = abaco fsolve p cfg l := by
  simp only [abaco, h]

/-- Claim C8: a thickness-solver failure at one CBR value does not abort the
sweep — the failed value contributes no row, and the rows of every other CBR
value, before and after it, are still produced in the same (ascending) order. -/
theorem abaco_falla_no_aborta (fsolve : (ℝ → ℝ) → ℝ → ℝ × ℤ) (p : Params)
    (cfg : ConfigBase) (l1 l2 : List ℝ) (c : ℝ)
    (h : fila_abaco fsolve p cfg c = none) :
    abaco fsolve p cfg (l1 ++ c :: l2) = abaco fsolve p cfg l1 ++ abaco fsolve p cfg l2 := by
  rw [abaco_append, abaco_cons_none fsolve p cfg l2 c h]

/-- Witness for claim C8: with an oracle that never converges, the middle CBR
value 3 is omitted and the sweep of [1, 3, 2] equals the sweeps of [1] and [2]
concatenated. -/
theorem abaco_falla_no_aborta_testigo :
    abaco fsolve_cero params_cero cfg_cero [1, 3, 2] =
      abaco fsolve_cero params_cero cfg_cero [1] ++ abaco fsolve_cero params_cero cfg_cero [2] := by
  have hsolve : ∀ ki : ℝ, calcular_espesor_aashto fsolve_cero params_cero.w18 params_cero.zr
      params_cero.s0 params_cero.p0 params_cero.pt params_cero.sc params_cero.cd
      params_cero.j params_cero.ec ki = none := fun ki =>
    primera_solucion_none _ _ (fun g _ => by norm_num [fsolve_cero])
  have hnone : fila_abaco fsolve_cero params_cero cfg_cero 3 = none := by
    simp only [fila_abaco, hsolve]
  exact abaco_falla_no_aborta fsolve_cero params_cero cfg_cero [1] [2] 3 hnone

/-- Claim C10: the solver tolerates violation of the `P0 > Pt` precondition —
for `p0 <= pt` the serviceability difference inside the residual is clamped at
0.01, so the residual coincides with the one at the degenerate pair
`(pt, pt)`; evaluation is total, and whatever the oracle does, the operation
still returns either a strictly positive thickness or the failure marker
`none`, with no error signalled to the caller. -/
theorem espesor_tolera_p0_le_pt (fsolve : (ℝ → ℝ) → ℝ → ℝ × ℤ)
    (w18 zr s0 p0 pt sc cd j ec k D x : ℝ) (hp : p0 ≤ pt)
    (hx : calcular_espesor_aashto fsolve w18 zr s0 p0 pt sc cd j ec k = some x) :
    ecuacion w18 zr s0 p0 pt sc cd j ec k D = ecuacion w18 zr s0 pt pt sc cd j ec k D ∧
    0 < x := by
  constructor
  · have hm : max (p0 - pt) 0.01 = max (pt - pt) 0.01 := by
      rw [max_eq_right (by linarith), max_eq_right (by norm_num)]
    simp only [ecuacion, hm]
  · exact primera_solucion_pos _ lista_guesses x hx

/-- Witness for claim C10 at the concrete serviceability pair `p0 = 2`,
`pt = 2.5` (violating `P0 > Pt`) with an always-converging oracle. -/
theorem espesor_tolera_p0_le_pt_testigo :
    ecuacion 0 0 0 2 2.5 0 0 0 0 0 1 = ecuacion 0 0 0 2.5 2.5 0 0 0 0 0 1 ∧ (0 : ℝ) < 6 := by
  have hx : calcular_espesor_aashto fsolve_uno 0 0 0 2 2.5 0 0 0 0 0 = some 6 := by
    show primera_solucion _ lista_guesses = some 6
    simp only [lista_guesses, primera_solucion, fsolve_uno]
    norm_num
  exact espesor_tolera_p0_le_pt fsolve_uno 0 0 0 2 2.5 0 0 0 0 0 1 6 (by norm_num) hx

end PavimentoRigido
